import Mathlib

/-!
Shallow embedding of the go-health package (Talento90/go-health), current
version: the `health` package in health.go together with memory.go.

Modelling conventions:
- Durations are `Nat` nanoseconds, matching Go's `time.Duration` integer
  nanosecond representation (`time.Second = 1000000000`).
- Go's `map[string]T` is modelled as an association list `List (String × T)`
  with insert-overwrite (`mapInsert`) and first-match lookup (`mapLookup`);
  a Go map always has unique keys, which appears as a `Nodup` hypothesis on
  key lists where a theorem needs it.
- A checker (the `Checker` interface, method `Check() error`) is modelled by
  its observable behaviour: the time `Check()` takes to return (`none` when it
  never returns) and the error value it returns on completion (`none` for a
  nil error, `some msg` for a non-nil error with message `msg`).
- The goroutine/channel dance in `func check` is resolved as follows: the
  select races the unbuffered `done` channel against `time.After(timeout)`;
  a completion delivered by time `timeout` takes the first branch (CHECKED),
  otherwise the timer branch fires (TIMEOUT).  The inner goroutine
  `done <- c.Check()` has no reader once the timer branch was taken, so its
  send blocks forever in that case; `checkLeaksBlockedUnit` records exactly
  that fact.
- Environment readings (`time.Now`, `runtime.ReadMemStats`,
  `runtime.NumGoroutine`) are passed in explicitly via `Env`.
-/

namespace GoHealth

/-- Go `time.Second` in nanoseconds. -/
def timeSecond : Nat := 1000000000

/-- Go `time.Millisecond` in nanoseconds. -/
def timeMillisecond : Nat := 1000000

/-- memory.go: `MemoryStatus` struct (TotalAlloc, HeapAlloc, ResidentSetSize),
all Go `uint64`. -/
structure MemoryStatus where
  TotalAlloc : Nat
  HeapAlloc : Nat
  ResidentSetSize : Nat
deriving DecidableEq

/-- memory.go: `Memory` struct combining current, initial and diff statistics. -/
structure Memory where
  Current : MemoryStatus
  Initial : MemoryStatus
  Diff : MemoryStatus
deriving DecidableEq

/-- Go `uint64` subtraction `a - b` (wraparound modulo 2^64), used by
`GetStatus` when computing the memory diff. -/
def u64sub (a b : Nat) : Nat :=
  (2 ^ 64 + a % 2 ^ 64 - b % 2 ^ 64) % 2 ^ 64

/-- Observable behaviour of a value implementing the `Checker` interface:
`delay` is how long `Check()` runs before returning (`none`: it never
returns); `result` is the error value it returns (`none`: nil error). -/
structure CheckerBehaviour where
  delay : Option Nat
  result : Option String
deriving DecidableEq

/-- health.go: `CheckerResult` struct: name (unexported), Status
("CHECKED"/"TIMEOUT"), Error, ResponseTime. -/
structure CheckerResult where
  name : String
  Status : String
  Error : Option String
  ResponseTime : Nat
deriving DecidableEq

/-- health.go: `Options` struct with the `CheckersTimeout` duration. -/
structure Options where
  CheckersTimeout : Nat
deriving DecidableEq

/-- health.go: the unexported `health` struct (the mutex only guards the
fields and has no observable state of its own, so it is not a field here). -/
structure health where
  name : String
  isShutdown : Bool
  startTime : Nat
  initMem : MemoryStatus
  checkers : List (String × CheckerBehaviour)
  options : Options
deriving DecidableEq

/-- health.go: the `Status` struct returned by `GetStatus`. -/
structure Status where
  Service : String
  Uptime : Nat
  StartTime : Nat
  Memory : GoHealth.Memory
  GoRoutines : Nat
  IsShuttingDown : Bool
  HealthCheckers : List (String × CheckerResult)
deriving DecidableEq

/-- Environment readings consumed by `New` / `GetStatus`: the current time,
the current `runtime.MemStats` reading and `runtime.NumGoroutine()`. -/
structure Env where
  now : Nat
  mem : MemoryStatus
  goRoutines : Nat
deriving DecidableEq

/-- Go map assignment `m[n] = c`: overwrite the entry for `n` when present,
otherwise add it. -/
def mapInsert {β : Type} : List (String × β) → String → β → List (String × β)
  | [], n, c => [(n, c)]
  | (k, v) :: t, n, c =>
    if k = n then (n, c) :: t else (k, v) :: mapInsert t n c

/-- Go map read `m[n]`: the value stored for key `n`, if any. -/
def mapLookup {β : Type} : List (String × β) → String → Option β
  | [], _ => none
  | (k, v) :: t, n => if k = n then some v else mapLookup t n

/-- Number of entries stored under key `n`. -/
def countKey {β : Type} : List (String × β) → String → Nat
  | [], _ => 0
  | (k, _) :: t, n => (if k = n then 1 else 0) + countKey t n

/-- Key list of an association list. -/
def keys {β : Type} (l : List (String × β)) : List String :=
  l.map Prod.fst

/-- health.go: `func New(name string, opt Options) Health`.  Applies the
1-second default when `opt.CheckersTimeout == 0`, then builds the instance
with empty registry and cleared shutdown flag.  `now` and `initMem` stand for
the `time.Now()` and `newMemoryStatus()` readings taken at construction. -/
def New (name : String) (opt : Options) (now : Nat) (initMem : MemoryStatus) :
    health :=
  { name := name
    isShutdown := false
    startTime := now
    initMem := initMem
    checkers := []
    options :=
      if opt.CheckersTimeout = 0 then { CheckersTimeout := timeSecond }
      else opt }

/-- health.go: `func (h *health) RegisterChecker(name string, check Checker)`:
`h.checkers[name] = check` under the mutex. -/
def RegisterChecker (h : health) (name : String) (c : CheckerBehaviour) :
    health :=
  { h with checkers := mapInsert h.checkers name c }

/-- health.go: `func (h *health) Shutdown()`: sets `h.isShutdown = true`
under the mutex. -/
def Shutdown (h : health) : health :=
  { h with isShutdown := true }

/-- health.go: `func check(ch, timeout, name, c)`.  Races the checker's
completion (sent on the unbuffered `done` channel by an inner goroutine)
against `time.After(timeout)`:
- completion within the budget: emits `{name, "CHECKED", err, elapsed}` where
  `err` is exactly what `c.Check()` returned;
- no completion within the budget (including a checker that never returns):
  emits `{name, "TIMEOUT"}` with the zero-value (nil) Error and the elapsed
  time, which is the timeout itself. -/
def check (timeout : Nat) (name : String) (c : CheckerBehaviour) :
    CheckerResult :=
  match c.delay with
  | some d =>
    if d ≤ timeout then
      { name := name, Status := "CHECKED", Error := c.result
        ResponseTime := d }
    else
      { name := name, Status := "TIMEOUT", Error := none
        ResponseTime := timeout }
  | none =>
    { name := name, Status := "TIMEOUT", Error := none
      ResponseTime := timeout }

/-- health.go: `func (h *health) checkersAsync() map[string]CheckerResult`.
For zero checkers it returns the empty map at once; otherwise it launches one
`check` goroutine per registry entry, then drains the buffered channel `ch`
until all `numCheckers` results arrived, storing each under `r.name`.  Every
`check` goroutine emits exactly one result for its own name, and registry
keys are unique (Go map), so the drained map assigns to each registered name
the result of `check` on its checker, independently of completion order. -/
def checkersAsync (timeout : Nat)
    (checkers : List (String × CheckerBehaviour)) :
    List (String × CheckerResult) :=
  checkers.map fun p => (p.1, check timeout p.1 p.2)

/-- Instant (from round start) at which the `check` goroutine for one entry
sends its result on the round's channel: the checker's completion time when
that is within the budget, otherwise the moment `time.After(timeout)` fires. -/
def checkEmitTime (timeout : Nat) (c : CheckerBehaviour) : Nat :=
  match c.delay with
  | some d => min d timeout
  | none => timeout

/-- Wall-clock duration of one `checkersAsync` round: the gather loop returns
once the last of the per-checker results has been sent (0 for an empty
registry, where the loop is never entered). -/
def roundDuration (timeout : Nat)
    (checkers : List (String × CheckerBehaviour)) : Nat :=
  (checkers.map fun p => checkEmitTime timeout p.2).foldr max 0

/-- Number of goroutines `checkersAsync` launches for one round: none for an
empty registry (early return before any channel is created), otherwise one
`check` goroutine plus one inner `done`-feeding goroutine per entry. -/
def roundGoroutinesLaunched
    (checkers : List (String × CheckerBehaviour)) : Nat :=
  if checkers.length = 0 then 0 else 2 * checkers.length

/-- Whether the inner goroutine `done <- c.Check()` of `func check` remains
blocked forever: `done` is unbuffered and its only reader is the select's
first branch, so when the checker completes strictly after the timer branch
won the race, the send has no reader, ever.  A checker that never returns
never reaches the send (its goroutine is abandoned inside `Check()` instead). -/
def checkLeaksBlockedUnit (timeout : Nat) (c : CheckerBehaviour) : Bool :=
  match c.delay with
  | some d => decide (timeout < d)
  | none => false

/-- Number of permanently-blocked goroutines one `checkersAsync` round leaves
behind. -/
def roundLeakedUnits (timeout : Nat)
    (checkers : List (String × CheckerBehaviour)) : Nat :=
  (checkers.filter fun p => checkLeaksBlockedUnit timeout p.2).length

/-- Permanently-blocked goroutines accumulated by running the same round
`rounds` times against an unchanged registry. -/
def leakedAfterRounds (timeout : Nat)
    (checkers : List (String × CheckerBehaviour)) (rounds : Nat) : Nat :=
  rounds * roundLeakedUnits timeout checkers

/-- health.go: `func (h *health) GetStatus() *Status`.  Reads the goroutine
count and a fresh memory reading, computes the uint64 diff against the
initial reading, runs one `checkersAsync` round and assembles the snapshot.
The method writes none of the receiver's fields; the returned second
component is the (unchanged) receiver state after the call. -/
def GetStatus (h : health) (env : Env) : Status × health :=
  let memStatus := env.mem
  let diffMemStatus : MemoryStatus :=
    { HeapAlloc := u64sub memStatus.HeapAlloc h.initMem.HeapAlloc
      TotalAlloc := u64sub memStatus.TotalAlloc h.initMem.TotalAlloc
      ResidentSetSize :=
        u64sub memStatus.ResidentSetSize h.initMem.ResidentSetSize }
  let results := checkersAsync h.options.CheckersTimeout h.checkers
  ({ Service := h.name
     Uptime := env.now - h.startTime
     StartTime := h.startTime
     GoRoutines := env.goRoutines
     Memory :=
       { Initial := h.initMem, Current := memStatus, Diff := diffMemStatus }
     IsShuttingDown := h.isShutdown
     HealthCheckers := results }, h)

/-- Outcome of one `ServeHTTP` call: the status code passed to `WriteHeader`
and the snapshot whose JSON marshalling was written as the body (`none` when
no body is written, i.e. the early 404 return). -/
structure HTTPResponse where
  code : Nat
  body : Option Status
deriving DecidableEq

/-- health.go: `func (h *health) ServeHTTP(w, r)`.  A non-GET method gets 404
and returns before any body is written; otherwise the snapshot is taken and
marshalled, and the code is 503 when shutting down, 200 otherwise. -/
def ServeHTTP (h : health) (env : Env) (method : String) : HTTPResponse :=
  if method ≠ "GET" then { code := 404, body := none }
  else
    { code := if h.isShutdown then 503 else 200
      body := some (GetStatus h env).1 }

/-- One operation against a `health` instance, for stating lifecycle
properties over arbitrary interleavings. -/
inductive Op where
  | register (name : String) (c : CheckerBehaviour)
  | shutdownOp
  | statusOp (env : Env)

/-- State after one operation. -/
def applyOp (h : health) : Op → health
  | .register n c => RegisterChecker h n c
  | .shutdownOp => Shutdown h
  | .statusOp env => (GetStatus h env).2

/-- State after a sequence of operations. -/
def applyOps (h : health) (ops : List Op) : health :=
  ops.foldl applyOp h

/-! Concrete instances used by the witnesses below. -/

/-- A concrete memory reading. -/
def memW : MemoryStatus :=
  { TotalAlloc := 0, HeapAlloc := 0, ResidentSetSize := 0 }

/-- A concrete environment reading. -/
def envW : Env := { now := 5, mem := memW, goRoutines := 7 }

/-- A concrete instance with three registered checkers: one returning
immediately, one never returning, one returning an error after 3 seconds. -/
def hW : health :=
  { name := "svc"
    isShutdown := false
    startTime := 0
    initMem := memW
    checkers :=
      [("db", { delay := some 0, result := none }),
       ("api", { delay := none, result := none }),
       ("cache", { delay := some (3 * timeSecond), result := some "down" })]
    options := { CheckersTimeout := timeSecond } }

/-! Helper lemmas about the association-list map operations. -/

theorem keys_checkersAsync (timeout : Nat)
    (l : List (String × CheckerBehaviour)) :
    keys (checkersAsync timeout l) = keys l := by
  simp [keys, checkersAsync, List.map_map, Function.comp]

theorem mapInsert_mapInsert {β : Type} (l : List (String × β)) (n : String)
    (c1 c2 : β) :
    mapInsert (mapInsert l n c1) n c2 = mapInsert l n c2 := by
  induction l with
  | nil => simp [mapInsert]
  | cons p t ih =>
    rcases p with ⟨k, v⟩
    by_cases hk : k = n
    · subst hk; simp [mapInsert]
    · simp [mapInsert, hk, ih]

theorem mapLookup_mapInsert {β : Type} (l : List (String × β)) (n : String)
    (c : β) :
    mapLookup (mapInsert l n c) n = some c := by
  induction l with
  | nil => simp [mapInsert, mapLookup]
  | cons p t ih =>
    rcases p with ⟨k, v⟩
    by_cases hk : k = n
    · subst hk; simp [mapInsert, mapLookup]
    · simp [mapInsert, mapLookup, hk, ih]

theorem countKey_eq_zero {β : Type} (l : List (String × β)) (n : String)
    (hn : n ∉ keys l) : countKey l n = 0 := by
  induction l with
  | nil => rfl
  | cons p t ih =>
    rcases p with ⟨k, v⟩
    simp only [keys, List.map_cons, List.mem_cons, not_or] at hn
    have hk : ¬ k = n := fun h => hn.1 h.symm
    simp [countKey, hk, ih hn.2]

theorem countKey_mapInsert_of_nodup {β : Type} (l : List (String × β))
    (n : String) (c : β) (hnodup : (keys l).Nodup) :
    countKey (mapInsert l n c) n = 1 := by
  induction l with
  | nil => simp [mapInsert, countKey]
  | cons p t ih =>
    rcases p with ⟨k, v⟩
    simp only [keys, List.map_cons, List.nodup_cons] at hnodup
    by_cases hk : k = n
    · subst hk
      simp [mapInsert, countKey, countKey_eq_zero t k hnodup.1]
    · simp [mapInsert, countKey, hk, ih hnodup.2]

theorem countKey_checkersAsync (timeout : Nat)
    (l : List (String × CheckerBehaviour)) (n : String) :
    countKey (checkersAsync timeout l) n = countKey l n := by
  induction l with
  | nil => rfl
  | cons p t ih =>
    simp only [checkersAsync, List.map_cons, countKey] at ih ⊢
    simp [ih]

theorem mapLookup_checkersAsync (timeout : Nat)
    (l : List (String × CheckerBehaviour)) (n : String) :
    mapLookup (checkersAsync timeout l) n =
      (mapLookup l n).map (fun c => check timeout n c) := by
  induction l with
  | nil => rfl
  | cons p t ih =>
    rcases p with ⟨k, v⟩
    by_cases hk : k = n
    · subst hk; simp [checkersAsync, mapLookup]
    · simp only [checkersAsync, List.map_cons, mapLookup] at ih ⊢
      simp [hk, ih]

theorem applyOps_isShutdown (ops : List Op) :
    ∀ h : health, h.isShutdown = true → (applyOps h ops).isShutdown = true := by
  induction ops with
  | nil => intro h hh; simpa [applyOps] using hh
  | cons op t ih =>
    intro h hh
    have hstep : (applyOp h op).isShutdown = true := by
      cases op with
      | register n c => simpa [applyOp, RegisterChecker] using hh
      | shutdownOp => simp [applyOp, Shutdown]
      | statusOp env => simpa [applyOp, GetStatus] using hh
    simpa [applyOps, List.foldl_cons] using ih (applyOp h op) hstep

/-! Claim theorems. -/

/-- Claim C1: for every registry of registered checkers (unique names) and any
checker behaviours (immediate, delayed, never returning), one status request
returns a result mapping whose key list is exactly the registered names at
round start — each name exactly once, no extra keys, no missing keys. -/
theorem getStatus_keyset_complete (h : health) (env : Env)
    (hnodup : (keys h.checkers).Nodup) :
    keys (GetStatus h env).1.HealthCheckers = keys h.checkers ∧
    (keys (GetStatus h env).1.HealthCheckers).Nodup ∧
    (GetStatus h env).1.HealthCheckers.length = h.checkers.length := by
  have hk : keys (GetStatus h env).1.HealthCheckers = keys h.checkers := by
    simpa [GetStatus] using keys_checkersAsync h.options.CheckersTimeout h.checkers
  refine ⟨hk, hk ▸ hnodup, ?_⟩
  simp [GetStatus, checkersAsync]

/-- Witness for C1: the three-checker instance `hW` (an immediate checker, a
never-returning checker, an erroring slow checker). -/
theorem getStatus_keyset_complete_witness :
    (keys hW.checkers).Nodup ∧
    keys (GetStatus hW envW).1.HealthCheckers = keys hW.checkers ∧
    (keys (GetStatus hW envW).1.HealthCheckers).Nodup ∧
    (GetStatus hW envW).1.HealthCheckers.length = hW.checkers.length :=
  ⟨by decide, getStatus_keyset_complete hW envW (by decide)⟩

/-- Claim C2: a checker completing within the budget gets status CHECKED with
the error payload exactly the checker's returned error; a checker not
completing within the budget gets TIMEOUT with no error payload; TIMEOUT is
never assigned to a checker that answered in time. -/
theorem check_status_classification (timeout : Nat) (name : String)
    (c : CheckerBehaviour) :
    ((check timeout name c).Status = "CHECKED" ↔
      ∃ d, c.delay = some d ∧ d ≤ timeout) ∧
    ((check timeout name c).Status = "CHECKED" →
      (check timeout name c).Error = c.result) ∧
    ((check timeout name c).Status = "TIMEOUT" ↔
      ¬ ∃ d, c.delay = some d ∧ d ≤ timeout) ∧
    ((check timeout name c).Status = "TIMEOUT" →
      (check timeout name c).Error = none) := by
  rcases c with ⟨delay, result⟩
  cases delay with
  | none => simp [check]
  | some d =>
    by_cases hd : d ≤ timeout <;> simp [check, hd]

/-- Witness for C2: an immediately-failing checker is CHECKED with its error
payload; a never-returning checker is TIMEOUT with no payload. -/
theorem check_status_classification_witness :
    (check timeSecond "db" { delay := some 0, result := some "boom" }).Status
      = "CHECKED" ∧
    (check timeSecond "db" { delay := some 0, result := some "boom" }).Error
      = some "boom" := by
  have hsp := check_status_classification timeSecond "db"
    { delay := some 0, result := some "boom" }
  have hc : (check timeSecond "db"
      { delay := some 0, result := some "boom" }).Status = "CHECKED" :=
    hsp.1.mpr ⟨0, rfl, Nat.zero_le _⟩
  exact ⟨hc, hsp.2.1 hc⟩

/-- The four-checker registry of the mixed scenario: delays 0ms, 300ms,
5000ms, and an erroring 500ms checker. -/
def mixedCheckers : List (String × CheckerBehaviour) :=
  [("instant", { delay := some 0, result := none }),
   ("fast", { delay := some (300 * timeMillisecond), result := none }),
   ("slow", { delay := some (5000 * timeMillisecond), result := none }),
   ("failing",
    { delay := some (500 * timeMillisecond),
      result := some "connection refused" })]

/-- An instance holding the mixed-scenario registry under a 1000ms timeout. -/
def hMixed : health :=
  { name := "svc"
    isShutdown := false
    startTime := 0
    initMem := memW
    checkers := mixedCheckers
    options := { CheckersTimeout := timeSecond } }

/-- Claim C3: in the mixed scenario (delays 0ms, 300ms, 5000ms, erroring
500ms; 1000ms round timeout) the statuses are CHECKED, CHECKED, TIMEOUT,
CHECKED, the erroring checker's result carries its error message, and the
round duration equals the 1000ms timeout, strictly below the 5000ms
checker's completion time. -/
theorem mixed_scenario_round :
    (GetStatus hMixed envW).1.HealthCheckers =
      [("instant",
        { name := "instant", Status := "CHECKED", Error := none
          ResponseTime := 0 }),
       ("fast",
        { name := "fast", Status := "CHECKED", Error := none
          ResponseTime := 300 * timeMillisecond }),
       ("slow",
        { name := "slow", Status := "TIMEOUT", Error := none
          ResponseTime := timeSecond }),
       ("failing",
        { name := "failing", Status := "CHECKED"
          Error := some "connection refused"
          ResponseTime := 500 * timeMillisecond })] ∧
    roundDuration timeSecond mixedCheckers = timeSecond ∧
    timeSecond < 5000 * timeMillisecond := by
  refine ⟨?_, ?_, ?_⟩ <;> decide

/-- The checker behaviour exhibiting the goroutine leak: `Check()` returns
(nil) after 2 seconds, against a 1-second round timeout. -/
def slowChecker : CheckerBehaviour :=
  { delay := some (2 * timeSecond), result := none }

/-- Claim C4 (code bug): the late completion is indeed discarded — the
finalized entry stays TIMEOUT with no payload — but the abandoned inner
goroutine then blocks forever on the unbuffered `done` channel, and repeating
the round leaves a number of permanently-blocked goroutines exceeding any
bound. -/
theorem timeout_leak_unbounded :
    check timeSecond "slow" slowChecker =
      { name := "slow", Status := "TIMEOUT", Error := none
        ResponseTime := timeSecond } ∧
    checkLeaksBlockedUnit timeSecond slowChecker = true ∧
    ∀ bound, ∃ rounds,
      bound < leakedAfterRounds timeSecond [("slow", slowChecker)] rounds := by
  refine ⟨by decide, by decide, fun bound => ⟨bound + 1, ?_⟩⟩
  have h1 : roundLeakedUnits timeSecond [("slow", slowChecker)] = 1 := by decide
  simp [leakedAfterRounds, h1]

/-- Claim C5: shutdown is monotone and terminal — the first shutdown sets the
flag, a second shutdown is idempotent, every subsequent operation sequence
preserves the flag, and a status request after shutdown reports
isShuttingDown, which ServeHTTP maps to 503 on GET. -/
theorem shutdown_terminal_monotone (h : health) (ops : List Op) (env : Env) :
    (Shutdown h).isShutdown = true ∧
    Shutdown (Shutdown h) = Shutdown h ∧
    (applyOps (Shutdown h) ops).isShutdown = true ∧
    (GetStatus (applyOps (Shutdown h) ops) env).1.IsShuttingDown = true ∧
    (ServeHTTP (applyOps (Shutdown h) ops) env "GET").code = 503 := by
  have hs : (applyOps (Shutdown h) ops).isShutdown = true :=
    applyOps_isShutdown ops (Shutdown h) rfl
  refine ⟨rfl, rfl, hs, ?_, ?_⟩
  · simpa [GetStatus] using hs
  · simp [ServeHTTP, hs]

/-- Claim C6: construction applies the 1-second default exactly when the
configured checker timeout is zero, keeps a non-zero timeout unchanged, and
never yields a zero (unbounded-wait) timeout. -/
theorem new_applies_default_timeout (name : String) (opt : Options)
    (now : Nat) (mem : MemoryStatus) :
    (opt.CheckersTimeout = 0 →
      (New name opt now mem).options.CheckersTimeout = timeSecond) ∧
    (opt.CheckersTimeout ≠ 0 →
      (New name opt now mem).options = opt) ∧
    0 < (New name opt now mem).options.CheckersTimeout := by
  rcases opt with ⟨t⟩
  by_cases ht : t = 0
  · subst ht
    refine ⟨fun _ => by simp [New], fun hc => absurd rfl hc, ?_⟩
    simp [New, timeSecond]
  · refine ⟨fun hc => absurd hc ht, fun _ => by simp [New, ht], ?_⟩
    simpa [New, ht] using Nat.pos_of_ne_zero ht

/-- Witness for C6: a zero timeout becomes one second; a five-nanosecond
timeout is kept unchanged. -/
theorem new_applies_default_timeout_witness :
    (New "svc" { CheckersTimeout := 0 } 0 memW).options.CheckersTimeout
      = timeSecond ∧
    (New "svc" { CheckersTimeout := 5 } 0 memW).options
      = { CheckersTimeout := 5 } :=
  ⟨(new_applies_default_timeout "svc" { CheckersTimeout := 0 } 0 memW).1 rfl,
   (new_applies_default_timeout "svc" { CheckersTimeout := 5 } 0 memW).2.1
     (by decide)⟩

/-- Claim C7: with zero registered checkers a status request yields an empty
result mapping, launches no goroutines, and the round takes no time at all —
in particular strictly less than the (positive) timeout. -/
theorem zero_checkers_immediate (h : health) (env : Env)
    (hempty : h.checkers = []) (hpos : 0 < h.options.CheckersTimeout) :
    (GetStatus h env).1.HealthCheckers = [] ∧
    roundGoroutinesLaunched h.checkers = 0 ∧
    roundDuration h.options.CheckersTimeout h.checkers = 0 ∧
    roundDuration h.options.CheckersTimeout h.checkers <
      h.options.CheckersTimeout := by
  refine ⟨?_, ?_, ?_, ?_⟩
  · simp [GetStatus, checkersAsync, hempty]
  · simp [roundGoroutinesLaunched, hempty]
  · simp [roundDuration, hempty]
  · simpa [roundDuration, hempty] using hpos

/-- Witness for C7: a freshly-constructed instance has an empty registry and
the defaulted (positive) timeout. -/
theorem zero_checkers_immediate_witness :
    (GetStatus (New "svc" { CheckersTimeout := 0 } 0 memW) envW).1.HealthCheckers
      = [] ∧
    roundGoroutinesLaunched
      (New "svc" { CheckersTimeout := 0 } 0 memW).checkers = 0 ∧
    roundDuration
      (New "svc" { CheckersTimeout := 0 } 0 memW).options.CheckersTimeout
      (New "svc" { CheckersTimeout := 0 } 0 memW).checkers = 0 ∧
    roundDuration
      (New "svc" { CheckersTimeout := 0 } 0 memW).options.CheckersTimeout
      (New "svc" { CheckersTimeout := 0 } 0 memW).checkers <
      (New "svc" { CheckersTimeout := 0 } 0 memW).options.CheckersTimeout :=
  zero_checkers_immediate (New "svc" { CheckersTimeout := 0 } 0 memW) envW
    rfl (by decide)

/-- Claim C8: registering `c1` and then `c2` under the same name leaves the
registry exactly as registering only `c2`; the next round's lookup for that
name runs `c2` (so `c1` is never invoked) and the round produces exactly one
result entry for the name. -/
theorem register_overwrite_last_wins (h : health) (n : String)
    (c1 c2 : CheckerBehaviour) (t : Nat)
    (hnodup : (keys h.checkers).Nodup) :
    RegisterChecker (RegisterChecker h n c1) n c2 = RegisterChecker h n c2 ∧
    mapLookup (RegisterChecker (RegisterChecker h n c1) n c2).checkers n
      = some c2 ∧
    mapLookup
      (checkersAsync t (RegisterChecker (RegisterChecker h n c1) n c2).checkers)
      n = some (check t n c2) ∧
    countKey
      (checkersAsync t (RegisterChecker (RegisterChecker h n c1) n c2).checkers)
      n = 1 := by
  have hreg : RegisterChecker (RegisterChecker h n c1) n c2
      = RegisterChecker h n c2 := by
    simp [RegisterChecker, mapInsert_mapInsert]
  refine ⟨hreg, ?_, ?_, ?_⟩
  · rw [hreg]
    exact mapLookup_mapInsert h.checkers n c2
  · rw [hreg, mapLookup_checkersAsync]
    simp [RegisterChecker, mapLookup_mapInsert]
  · rw [hreg, countKey_checkersAsync]
    exact countKey_mapInsert_of_nodup h.checkers n c2 hnodup

/-- Witness for C8: overwriting the "db" entry of `hW` with a second checker
behaves as if only the second had been registered. -/
theorem register_overwrite_last_wins_witness :
    RegisterChecker
        (RegisterChecker hW "db" { delay := some 1, result := none }) "db"
        { delay := some 2, result := none }
      = RegisterChecker hW "db" { delay := some 2, result := none } ∧
    mapLookup
      (RegisterChecker
        (RegisterChecker hW "db" { delay := some 1, result := none }) "db"
        { delay := some 2, result := none }).checkers "db"
      = some { delay := some 2, result := none } ∧
    mapLookup
      (checkersAsync timeSecond
        (RegisterChecker
          (RegisterChecker hW "db" { delay := some 1, result := none }) "db"
          { delay := some 2, result := none }).checkers) "db"
      = some (check timeSecond "db" { delay := some 2, result := none }) ∧
    countKey
      (checkersAsync timeSecond
        (RegisterChecker
          (RegisterChecker hW "db" { delay := some 1, result := none }) "db"
          { delay := some 2, result := none }).checkers) "db" = 1 :=
  register_overwrite_last_wins hW "db" { delay := some 1, result := none }
    { delay := some 2, result := none } timeSecond (by decide)

/-- Claim C9: a GET request returns 200 with the serialized snapshot when not
shut down and 503 with the same body when shut down; any non-GET request
returns 404 (with no body). -/
theorem serveHTTP_method_and_shutdown (h : health) (env : Env)
    (method : String) :
    (method ≠ "GET" →
      ServeHTTP h env method = { code := 404, body := none }) ∧
    (method = "GET" → h.isShutdown = false →
      ServeHTTP h env method
        = { code := 200, body := some (GetStatus h env).1 }) ∧
    (method = "GET" → h.isShutdown = true →
      ServeHTTP h env method
        = { code := 503, body := some (GetStatus h env).1 }) := by
  refine ⟨fun hm => by simp [ServeHTTP, hm], fun hm hs => ?_, fun hm hs => ?_⟩
    <;> subst hm <;> simp [ServeHTTP, hs]

/-- Witness for C9: POST gets 404; GET gets 200 with the snapshot before
shutdown and 503 with the snapshot after shutdown. -/
theorem serveHTTP_method_and_shutdown_witness :
    ServeHTTP hW envW "POST" = { code := 404, body := none } ∧
    ServeHTTP hW envW "GET"
      = { code := 200, body := some (GetStatus hW envW).1 } ∧
    ServeHTTP (Shutdown hW) envW "GET"
      = { code := 503, body := some (GetStatus (Shutdown hW) envW).1 } :=
  ⟨(serveHTTP_method_and_shutdown hW envW "POST").1 (by decide),
   (serveHTTP_method_and_shutdown hW envW "GET").2.1 rfl rfl,
   (serveHTTP_method_and_shutdown (Shutdown hW) envW "GET").2.2 rfl rfl⟩

/-- Claim C10: GetStatus is read-only on the instance — the state after the
call is the state before it, field by field (service name, start time,
initial memory baseline, registry, options/timeout, shutdown flag). -/
theorem getStatus_readonly (h : health) (env : Env) :
    (GetStatus h env).2 = h ∧
    applyOp h (Op.statusOp env) = h ∧
    (GetStatus h env).2.name = h.name ∧
    (GetStatus h env).2.startTime = h.startTime ∧
    (GetStatus h env).2.initMem = h.initMem ∧
    (GetStatus h env).2.checkers = h.checkers ∧
    (GetStatus h env).2.options = h.options ∧
    (GetStatus h env).2.isShutdown = h.isShutdown :=
  ⟨rfl, rfl, rfl, rfl, rfl, rfl, rfl, rfl⟩

end GoHealth
